import Mathlib

/-!
Shallow embedding of the cat-database MCP server (src/src/main.rs).

The server holds a fixed in-memory map of `Cat` records, advertises four
tools via `list_tools`, and dispatches invocations via `call_tool`.
JSON values arriving in the argument bag are modelled by `Json`, with
`serde_json`'s three-variant number representation (`JNumber`): a
non-negative integer stored as u64, a negative integer stored as i64, or a
finite double (whose numeric value we carry as a rational, since the only
operation the server ever applies to it, `as_u64`, ignores it and returns
`none`).

`HashMap<u32, Cat>` is modelled as an association list in insertion order;
every property proved below about `values()`-derived data is insensitive to
the enumeration order (counts, membership, single-element results), matching
the fact that the real iteration order is unspecified.

`serde_json::to_string_pretty` on `Cat` / `Vec<&Cat>` cannot fail (derived
serializers on these types are infallible), so it is modelled as the total
functions `catPretty` / `catsPretty` reproducing serde's pretty format
(2-space indent, struct fields in declaration order, JSON string escaping).
-/

namespace CatMcp

/-- serde_json's number: u64 non-negative integer, i64 negative integer, or a
finite f64 (value carried as a rational; the server never computes with it). -/
inductive JNumber where
  | posInt (n : Nat)
  | negInt (n : Int)
  | float (q : Rat)

/-- serde_json::Value. Objects and the argument bag are association lists in
insertion order (serde_json's map preserves insertion order by default). -/
inductive Json where
  | null
  | bool (b : Bool)
  | num (n : JNumber)
  | str (s : String)
  | arr (xs : List Json)
  | obj (fields : List (String × Json))

/-- `Value::as_u64`: `Some` exactly for a number stored as a u64. -/
def Json.as_u64 : Json → Option Nat
  | .num (.posInt n) => some n
  | _ => none

/-- `Value::as_str`: `Some` exactly for a JSON string. -/
def Json.as_str : Json → Option String
  | .str s => some s
  | _ => none

/-- `Map::get` on an association-list map (keys are unique in a real map, so
first-match lookup agrees with map lookup). -/
def getArg (args : List (String × Json)) (key : String) : Option Json :=
  (args.find? (fun p => p.1 == key)).map (·.2)

/-- The domain record (struct `Cat`). -/
structure Cat where
  id : Nat
  name : String
  age : Nat
  breed : String
  color : String
  is_indoor : Bool
  favorite_toy : String
deriving DecidableEq

/-- The server state: `cats: HashMap<u32, Cat>` as an association list. -/
structure CatServer where
  cats : List (Nat × Cat)
deriving DecidableEq

/-- `CatServer::new()`: the four sample cats, in insertion order. -/
def CatServer.new : CatServer :=
  { cats :=
      [ (1, { id := 1, name := "Mike", age := 3, breed := "Calico",
              color := "Calico", is_indoor := true, favorite_toy := "Mouse toy" }),
        (2, { id := 2, name := "Shiro", age := 5, breed := "Persian",
              color := "White", is_indoor := true, favorite_toy := "Yarn ball" }),
        (3, { id := 3, name := "Kuro", age := 2, breed := "Black cat",
              color := "Black", is_indoor := false, favorite_toy := "Butterfly" }),
        (4, { id := 4, name := "Chatora", age := 7, breed := "Orange tabby",
              color := "Orange tabby", is_indoor := true, favorite_toy := "Catnip" }) ] }

/-- `HashMap::values()` (order unspecified in Rust; modelled as insertion order,
and no proved property depends on the order). -/
def CatServer.values (s : CatServer) : List Cat := s.cats.map (·.2)

/-- `HashMap::get(&id)`. -/
def CatServer.get (s : CatServer) (id : Nat) : Option Cat :=
  (s.cats.find? (fun p => p.1 == id)).map (·.2)

/-- Rust `str::contains(&str)` at the character level: substring containment,
with the empty pattern contained in everything. `charsMatchAt pat s` holds when
`pat` is an initial segment of `s`. -/
def charsMatchAt : List Char → List Char → Bool
  | [], _ => true
  | _ :: _, [] => false
  | a :: as, b :: bs => a == b && charsMatchAt as bs

def charsContain (pat : List Char) : List Char → Bool
  | [] => charsMatchAt pat []
  | b :: bs => charsMatchAt pat (b :: bs) || charsContain pat bs

def strContains (s pat : String) : Bool :=
  charsContain pat.toList s.toList

/-- ASCII lower-casing, used only to state that an error message names a
parameter up to capitalization ("ID is required" names `id`). -/
def charLower (c : Char) : Char :=
  if 65 ≤ c.toNat && c.toNat ≤ 90 then Char.ofNat (c.toNat + 32) else c

def strLower (s : String) : String :=
  String.mk (s.toList.map charLower)

/-- Lower-case hex digit, as serde_json writes `\u00XX` escapes. -/
def hexDigit (n : Nat) : Char :=
  if n < 10 then Char.ofNat (48 + n) else Char.ofNat (87 + n)

/-- serde_json's JSON string escaping: `"`, `\`, named control escapes, and
`\u00XX` for other control characters; everything else verbatim (serde_json
emits non-ASCII characters raw). -/
def escChar (c : Char) : String :=
  if c = '"' then "\\\""
  else if c = '\\' then "\\\\"
  else if c = '\n' then "\\n"
  else if c = '\r' then "\\r"
  else if c = '\t' then "\\t"
  else if c.toNat = 8 then "\\b"
  else if c.toNat = 12 then "\\f"
  else if c.toNat < 32 then
    "\\u00" ++ String.mk [hexDigit (c.toNat / 16), hexDigit (c.toNat % 16)]
  else String.mk [c]

def jsonEscape (s : String) : String :=
  String.join (s.toList.map escChar)

def jstr (s : String) : String := "\"" ++ jsonEscape s ++ "\""

/-- `serde_json::to_string_pretty` of one `Cat` (derived serializer: fields in
declaration order, 2-space indent). `ind` is the indentation already in force
at the opening brace's line. -/
def catPretty (ind : String) (c : Cat) : String :=
  "\x7b\n" ++
  ind ++ "  \"id\": " ++ toString c.id ++ ",\n" ++
  ind ++ "  \"name\": " ++ jstr c.name ++ ",\n" ++
  ind ++ "  \"age\": " ++ toString c.age ++ ",\n" ++
  ind ++ "  \"breed\": " ++ jstr c.breed ++ ",\n" ++
  ind ++ "  \"color\": " ++ jstr c.color ++ ",\n" ++
  ind ++ "  \"is_indoor\": " ++ (if c.is_indoor then "true" else "false") ++ ",\n" ++
  ind ++ "  \"favorite_toy\": " ++ jstr c.favorite_toy ++ "\n" ++
  ind ++ "\x7d"

/-- `serde_json::to_string_pretty` of `Vec<&Cat>`. -/
def catsPretty (cats : List Cat) : String :=
  match cats with
  | [] => "[]"
  | _ => "[\n" ++ String.intercalate ",\n" (cats.map (fun c => "  " ++ catPretty "  " c)) ++ "\n]"

/-- JSON-RPC error codes used by the server (`rmcp::model::ErrorCode`). -/
def INVALID_PARAMS : Int := -32602
def METHOD_NOT_FOUND : Int := -32601
def INTERNAL_ERROR : Int := -32603

/-- `rmcp::ErrorData` (the `data` field is always `None` in this server). -/
structure ErrorData where
  code : Int
  message : String
deriving DecidableEq

/-- `rmcp::model::CallToolResult`; a content block is a plain text segment. -/
structure CallToolResult where
  content : List String
  is_error : Option Bool
deriving DecidableEq

/-- `rmcp::model::CallToolRequestParam`. -/
structure CallToolRequestParam where
  name : String
  arguments : Option (List (String × Json))

/-- A tool descriptor (`rmcp::model::Tool`; the `annotations` field is the
constant `None` in this server and is omitted). -/
structure Tool where
  name : String
  description : Option String
  input_schema : Json

structure PaginatedRequestParam where
  cursor : Option String

structure ListToolsResult where
  tools : List Tool
  next_cursor : Option String

/-- `CatServer::list_tools`: the fixed four-descriptor catalog; the pagination
request is ignored and `next_cursor` is always `None`. -/
def list_tools (_request : Option PaginatedRequestParam) : ListToolsResult :=
  { tools :=
      [ { name := "list_all_cats",
          description := some "Get a list of all cats",
          input_schema := .obj
            [ ("type", .str "object"),
              ("properties", .obj []),
              ("required", .arr []) ] },
        { name := "get_cat_by_id",
          description := some "Get information about a specific cat by ID",
          input_schema := .obj
            [ ("type", .str "object"),
              ("properties", .obj
                [ ("id", .obj [ ("type", .str "number"), ("description", .str "Cat ID") ]) ]),
              ("required", .arr [.str "id"]) ] },
        { name := "search_by_breed",
          description := some "Search for cats by breed",
          input_schema := .obj
            [ ("type", .str "object"),
              ("properties", .obj
                [ ("breed", .obj [ ("type", .str "string"), ("description", .str "Breed to search for") ]) ]),
              ("required", .arr [.str "breed"]) ] },
        { name := "get_indoor_cats",
          description := some "Get only indoor cats",
          input_schema := .obj
            [ ("type", .str "object"),
              ("properties", .obj []),
              ("required", .arr []) ] } ],
    next_cursor := none }

/-- `CatServer::call_tool`: the dispatch match on the tool name.
Serialization (`to_string_pretty`) is infallible on these types, so the
`INTERNAL_ERROR` arms of the source are unreachable and the success paths are
total. -/
def call_tool (s : CatServer) (request : CallToolRequestParam) :
    Except ErrorData CallToolResult :=
  if request.name = "list_all_cats" then
    let cats := s.values
    let content := catsPretty cats
    .ok { content := ["All registered cats (" ++ toString cats.length ++ " cats):\n" ++ content],
          is_error := some false }
  else if request.name = "get_cat_by_id" then
    match ((request.arguments.bind (fun args => getArg args "id")).bind Json.as_u64).map
        (fun v => v % 2 ^ 32) with
    | none => .error { code := INVALID_PARAMS, message := "ID is required" }
    | some id =>
      match s.get id with
      | some cat =>
          .ok { content := ["Cat details (ID: " ++ toString id ++ "):\n" ++ catPretty "" cat],
                is_error := some false }
      | none =>
          .ok { content := ["Cat with ID " ++ toString id ++ " not found"],
                is_error := some false }
  else if request.name = "search_by_breed" then
    match (request.arguments.bind (fun args => getArg args "breed")).bind Json.as_str with
    | none => .error { code := INVALID_PARAMS, message := "Breed is required" }
    | some breed =>
      let matching_cats := s.values.filter (fun cat => strContains cat.breed breed)
      if matching_cats.isEmpty then
        .ok { content := ["No cats found with breed \"" ++ breed ++ "\""],
              is_error := some false }
      else
        .ok { content := ["Cats with breed \"" ++ breed ++ "\" (" ++
                toString matching_cats.length ++ " cats):\n" ++ catsPretty matching_cats],
              is_error := some false }
  else if request.name = "get_indoor_cats" then
    let indoor_cats := s.values.filter (·.is_indoor)
    .ok { content := ["Indoor cats (" ++ toString indoor_cats.length ++ " cats):\n" ++
            catsPretty indoor_cats],
          is_error := some false }
  else
    .error { code := METHOD_NOT_FOUND, message := "Unknown tool: " ++ request.name }

/-- The catalog's tool names, in catalog order. -/
def toolNames : List String := (list_tools none).tools.map (·.name)

/-- Does a JSON value have the primitive type a schema declares?  "number"
means any JSON number (integer or float), per JSON Schema. -/
def typeMatches (ty : String) (v : Json) : Bool :=
  if ty = "number" then match v with | .num _ => true | _ => false
  else if ty = "string" then match v with | .str _ => true | _ => false
  else if ty = "boolean" then match v with | .bool _ => true | _ => false
  else true

/-- The JSON-Schema meaning of a catalog entry's declared input contract (the
spec's notion of a "satisfying argument bag"): every name in `required` is
present in the bag, and every supplied parameter the schema declares carries a
value of its declared primitive type; unknown keys are ignored.  This is the
contract the server advertises; `accepted` below is what its dispatcher
actually enforces. -/
def satisfiesSchema (schema : Json) (args : Option (List (String × Json))) : Bool :=
  match schema with
  | .obj fields =>
    let props := match getArg fields "properties" with | some (.obj ps) => ps | _ => []
    let req := match getArg fields "required" with
      | some (.arr rs) => rs.filterMap (fun j => match j with | Json.str s => some s | _ => none)
      | _ => []
    let bag := args.getD []
    (req.all (fun r => (getArg bag r).isSome)) &&
    (bag.all (fun p => match getArg props p.1 with
      | some (.obj pf) =>
        (match getArg pf "type" with
         | some (.str ty) => typeMatches ty p.2
         | _ => true)
      | _ => true))
  | _ => false

/-- The argument bags the dispatcher's own extraction accepts: `get_cat_by_id`
demands an `id` whose value `as_u64` converts (a non-negative integer), and
`search_by_breed` demands a `breed` whose value `as_str` converts (a string);
the two parameterless tools accept anything. -/
def accepted (name : String) (args : Option (List (String × Json))) : Bool :=
  if name = "get_cat_by_id" then
    ((args.bind (fun a => getArg a "id")).bind Json.as_u64).isSome
  else if name = "search_by_breed" then
    ((args.bind (fun a => getArg a "breed")).bind Json.as_str).isSome
  else true

/-- The schema shape every catalog entry must expose: an object carrying
`type: "object"`, a `properties` object, and a `required` array of strings. -/
def schemaShape : Json → Bool
  | .obj [("type", .str "object"), ("properties", .obj _), ("required", .arr req)] =>
    req.all (fun j => match j with | Json.str _ => true | _ => false)
  | _ => false

deriving instance DecidableEq for Except

set_option maxRecDepth 100000

/-! ### Helper lemmas about substring containment -/

lemma charsMatchAt_self : ∀ l : List Char, charsMatchAt l l = true
  | [] => rfl
  | a :: as => by simp [charsMatchAt, charsMatchAt_self as]

lemma charsContain_self (l : List Char) : charsContain l l = true := by
  cases l with
  | nil => rfl
  | cons b bs => simp [charsContain, charsMatchAt_self]

lemma charsContain_append_right (pat xs ys : List Char)
    (h : charsContain pat ys = true) : charsContain pat (xs ++ ys) = true := by
  induction xs with
  | nil => simpa using h
  | cons x xs ih => simp [charsContain, ih]

lemma charsContain_nil (l : List Char) : charsContain [] l = true := by
  cases l <;> simp [charsContain, charsMatchAt]

lemma strContains_append_right (a b : String) : strContains (a ++ b) b = true := by
  have h : (a ++ b).toList = a.toList ++ b.toList := by simp [String.toList]
  rw [strContains, h]
  exact charsContain_append_right _ _ _ (charsContain_self _)

lemma strContains_empty_pat (s : String) : strContains s "" = true :=
  charsContain_nil _

/-! ### Reduction lemmas for the dispatcher -/

/-- The `get_cat_by_id` arm, unfolded. -/
lemma call_tool_get_by_id (s : CatServer) (args : Option (List (String × Json))) :
    call_tool s ⟨"get_cat_by_id", args⟩ =
      match ((args.bind (fun a => getArg a "id")).bind Json.as_u64).map
          (fun v => v % 2 ^ 32) with
      | none => .error { code := INVALID_PARAMS, message := "ID is required" }
      | some id =>
        match s.get id with
        | some cat =>
            .ok { content := ["Cat details (ID: " ++ toString id ++ "):\n" ++ catPretty "" cat],
                  is_error := some false }
        | none =>
            .ok { content := ["Cat with ID " ++ toString id ++ " not found"],
                  is_error := some false } := rfl

/-- The `search_by_breed` arm, unfolded. -/
lemma call_tool_search (s : CatServer) (args : Option (List (String × Json))) :
    call_tool s ⟨"search_by_breed", args⟩ =
      match (args.bind (fun a => getArg a "breed")).bind Json.as_str with
      | none => .error { code := INVALID_PARAMS, message := "Breed is required" }
      | some breed =>
        let matching_cats := s.values.filter (fun cat => strContains cat.breed breed)
        if matching_cats.isEmpty then
          .ok { content := ["No cats found with breed \"" ++ breed ++ "\""],
                is_error := some false }
        else
          .ok { content := ["Cats with breed \"" ++ breed ++ "\" (" ++
                  toString matching_cats.length ++ " cats):\n" ++ catsPretty matching_cats],
                is_error := some false } := rfl

lemma list_all_ok (s : CatServer) (args : Option (List (String × Json))) :
    ∃ r, call_tool s ⟨"list_all_cats", args⟩ = .ok r := ⟨_, rfl⟩

lemma indoor_ok (s : CatServer) (args : Option (List (String × Json))) :
    ∃ r, call_tool s ⟨"get_indoor_cats", args⟩ = .ok r := ⟨_, rfl⟩

lemma getById_arg_ok (s : CatServer) (args : Option (List (String × Json))) (n : Nat)
    (h : (args.bind (fun a => getArg a "id")).bind Json.as_u64 = some n) :
    ∃ r, call_tool s ⟨"get_cat_by_id", args⟩ = .ok r := by
  have hred : call_tool s ⟨"get_cat_by_id", args⟩ =
      match s.get (n % 2 ^ 32) with
      | some cat =>
          .ok { content := ["Cat details (ID: " ++ toString (n % 2 ^ 32) ++ "):\n" ++
                  catPretty "" cat],
                is_error := some false }
      | none =>
          .ok { content := ["Cat with ID " ++ toString (n % 2 ^ 32) ++ " not found"],
                is_error := some false } := by
    rw [call_tool_get_by_id, h]
    exact rfl
  rw [hred]
  cases s.get (n % 2 ^ 32) <;> exact ⟨_, rfl⟩

lemma search_arg_ok (s : CatServer) (args : Option (List (String × Json))) (b : String)
    (h : (args.bind (fun a => getArg a "breed")).bind Json.as_str = some b) :
    ∃ r, call_tool s ⟨"search_by_breed", args⟩ = .ok r := by
  have hred : call_tool s ⟨"search_by_breed", args⟩ =
      if (s.values.filter (fun cat => strContains cat.breed b)).isEmpty then
        .ok { content := ["No cats found with breed \"" ++ b ++ "\""],
              is_error := some false }
      else
        .ok { content := ["Cats with breed \"" ++ b ++ "\" (" ++
                toString (s.values.filter (fun cat => strContains cat.breed b)).length ++
                " cats):\n" ++ catsPretty (s.values.filter (fun cat => strContains cat.breed b))],
              is_error := some false } := by
    rw [call_tool_search, h]
  rw [hred]
  by_cases he : (s.values.filter (fun cat => strContains cat.breed b)).isEmpty
  · rw [if_pos he]; exact ⟨_, rfl⟩
  · rw [if_neg he]; exact ⟨_, rfl⟩

/-- A name matching none of the four arms falls through to `method_not_found`. -/
lemma call_tool_fallthrough (s : CatServer) (name : String)
    (args : Option (List (String × Json)))
    (h1 : name ≠ "list_all_cats") (h2 : name ≠ "get_cat_by_id")
    (h3 : name ≠ "search_by_breed") (h4 : name ≠ "get_indoor_cats") :
    call_tool s ⟨name, args⟩ =
      .error { code := METHOD_NOT_FOUND, message := "Unknown tool: " ++ name } := by
  simp only [call_tool]
  rw [if_neg h1, if_neg h2, if_neg h3, if_neg h4]

lemma toolNames_eq :
    toolNames = ["list_all_cats", "get_cat_by_id", "search_by_breed", "get_indoor_cats"] := rfl

lemma getById_noarg (s : CatServer) (args : Option (List (String × Json)))
    (h : (args.bind (fun a => getArg a "id")).bind Json.as_u64 = none) :
    call_tool s ⟨"get_cat_by_id", args⟩ =
      .error { code := INVALID_PARAMS, message := "ID is required" } := by
  rw [call_tool_get_by_id, h]
  exact rfl

lemma search_noarg (s : CatServer) (args : Option (List (String × Json)))
    (h : (args.bind (fun a => getArg a "breed")).bind Json.as_str = none) :
    call_tool s ⟨"search_by_breed", args⟩ =
      .error { code := INVALID_PARAMS, message := "Breed is required" } := by
  rw [call_tool_search, h]

/-! ### The claims -/

/-- C1 (amended): the catalog and the dispatcher stay in lock-step.  For every
tool name the catalog lists, `call_tool` with an argument bag the dispatcher's
own extraction `accepted` (an integer `id` / a string `breed`) never returns
`method_not_found` or `invalid_params`; and every name `call_tool` dispatches
without `method_not_found` appears in the catalog.  (As originally stated —
with "satisfying" read against the advertised JSON schema — the claim fails:
see the counterexample, a schema-satisfying floating-point `id`.) -/
theorem lockstep_catalog_dispatch :
    (∀ name, name ∈ toolNames → ∀ args, accepted name args = true →
       ∀ e, call_tool CatServer.new ⟨name, args⟩ = .error e →
         e.code ≠ METHOD_NOT_FOUND ∧ e.code ≠ INVALID_PARAMS)
  ∧ (∀ name args,
       (∀ e, call_tool CatServer.new ⟨name, args⟩ = .error e → e.code ≠ METHOD_NOT_FOUND) →
       name ∈ toolNames) := by
  constructor
  · intro name hmem args hacc e he
    rw [toolNames_eq] at hmem
    fin_cases hmem
    · obtain ⟨r, hr⟩ := list_all_ok CatServer.new args
      rw [hr] at he
      exact Except.noConfusion he
    · have h2 : ((args.bind (fun a => getArg a "id")).bind Json.as_u64).isSome = true := hacc
      obtain ⟨n, hn⟩ := Option.isSome_iff_exists.mp h2
      obtain ⟨r, hr⟩ := getById_arg_ok CatServer.new args n hn
      rw [hr] at he
      exact Except.noConfusion he
    · have h2 : ((args.bind (fun a => getArg a "breed")).bind Json.as_str).isSome = true := hacc
      obtain ⟨b, hb⟩ := Option.isSome_iff_exists.mp h2
      obtain ⟨r, hr⟩ := search_arg_ok CatServer.new args b hb
      rw [hr] at he
      exact Except.noConfusion he
    · obtain ⟨r, hr⟩ := indoor_ok CatServer.new args
      rw [hr] at he
      exact Except.noConfusion he
  · intro name args h
    rw [toolNames_eq]
    by_cases h1 : name = "list_all_cats"
    · simp [h1]
    by_cases h2 : name = "get_cat_by_id"
    · simp [h2]
    by_cases h3 : name = "search_by_breed"
    · simp [h3]
    by_cases h4 : name = "get_indoor_cats"
    · simp [h4]
    exact absurd rfl (h _ (call_tool_fallthrough CatServer.new name args h1 h2 h3 h4))

/-- C1 witness: `get_cat_by_id` with an integer id is in the catalog by the
lock-step theorem's second half, and its dispatch with an accepted bag refuses
neither taxonomy by the first half. -/
theorem lockstep_catalog_dispatch_witness : "get_cat_by_id" ∈ toolNames :=
  lockstep_catalog_dispatch.2 "get_cat_by_id" (some [("id", Json.num (JNumber.posInt 1))])
    (fun e he => by
      obtain ⟨r, hr⟩ := getById_arg_ok CatServer.new
        (some [("id", Json.num (JNumber.posInt 1))]) 1 rfl
      rw [hr] at he
      exact Except.noConfusion he)

/-- C1 counterexample: the bag `{"id": 1.0}` satisfies `get_cat_by_id`'s
advertised schema (its `id` is a JSON number), the tool is in the catalog, yet
`call_tool` answers `invalid_params` — so a catalog-schema-satisfying bag does
not suffice to avoid `invalid_params`. -/
theorem schema_satisfying_bag_rejected :
    ("get_cat_by_id" ∈ toolNames)
  ∧ (((list_tools none).tools.filter (fun t => t.name == "get_cat_by_id")).length = 1)
  ∧ (((list_tools none).tools.filter (fun t => t.name == "get_cat_by_id")).all
       (fun t => satisfiesSchema t.input_schema
         (some [("id", Json.num (JNumber.float 1))])) = true)
  ∧ (call_tool CatServer.new ⟨"get_cat_by_id", some [("id", Json.num (JNumber.float 1))]⟩ =
       .error { code := INVALID_PARAMS, message := "ID is required" }) :=
  ⟨by decide, by decide, by decide, rfl⟩

/-- C2 (amended): a "number" parameter is coerced by `as_u64`, so it accepts
exactly the values stored as non-negative integers: any present `id` whose
value is not such an integer — a float, a negative integer, a string, or any
other JSON value — is rejected with the same `invalid_params` "ID is
required" error as a missing parameter (not accepted, and not a distinct
type-mismatch message); an integer `id` is accepted.  A "string" parameter
requires a string value: a non-string `breed` is rejected with
`invalid_params` "Breed is required", a string `breed` is accepted. -/
theorem coercion_by_declared_type :
    (∀ (args : List (String × Json)) (v : Json),
       getArg args "id" = some v → (∀ n : Nat, v ≠ Json.num (JNumber.posInt n)) →
       call_tool CatServer.new ⟨"get_cat_by_id", some args⟩ =
         .error { code := INVALID_PARAMS, message := "ID is required" })
  ∧ (∀ (args : List (String × Json)) (n : Nat),
       getArg args "id" = some (Json.num (JNumber.posInt n)) →
       ∃ r, call_tool CatServer.new ⟨"get_cat_by_id", some args⟩ = .ok r)
  ∧ (∀ (args : List (String × Json)) (v : Json),
       getArg args "breed" = some v → (∀ t, v ≠ Json.str t) →
       call_tool CatServer.new ⟨"search_by_breed", some args⟩ =
         .error { code := INVALID_PARAMS, message := "Breed is required" })
  ∧ (∀ (args : List (String × Json)) (t : String),
       getArg args "breed" = some (Json.str t) →
       ∃ r, call_tool CatServer.new ⟨"search_by_breed", some args⟩ = .ok r) := by
  refine ⟨?_, ?_, ?_, ?_⟩
  · intro args v hv hnum
    apply getById_noarg
    show ((getArg args "id").bind Json.as_u64) = none
    rw [hv]
    cases v with
    | num m =>
      cases m with
      | posInt n => exact absurd rfl (hnum n)
      | negInt n => rfl
      | float q => rfl
    | null => rfl
    | bool b => rfl
    | str t => rfl
    | arr xs => rfl
    | obj fs => rfl
  · intro args n h
    apply getById_arg_ok CatServer.new (some args) n
    show ((getArg args "id").bind Json.as_u64) = some n
    rw [h]
    rfl
  · intro args v hv hns
    apply search_noarg
    show ((getArg args "breed").bind Json.as_str) = none
    rw [hv]
    cases v with
    | str t => exact absurd rfl (hns t)
    | null => rfl
    | bool b => rfl
    | num m => rfl
    | arr xs => rfl
    | obj fs => rfl
  · intro args t h
    apply search_arg_ok CatServer.new (some args) t
    show ((getArg args "breed").bind Json.as_str) = some t
    rw [h]
    rfl

/-- C2 witness: a float id, a negative-integer id, a string id and a numeric
breed are all turned away with the validator's `invalid_params` errors, by
the coercion theorem applied at concrete bags. -/
theorem coercion_by_declared_type_witness :
    (call_tool CatServer.new ⟨"get_cat_by_id", some [("id", Json.num (JNumber.float 1))]⟩ =
       .error { code := INVALID_PARAMS, message := "ID is required" })
  ∧ (call_tool CatServer.new ⟨"get_cat_by_id", some [("id", Json.num (JNumber.negInt (-5)))]⟩ =
       .error { code := INVALID_PARAMS, message := "ID is required" })
  ∧ (call_tool CatServer.new ⟨"get_cat_by_id", some [("id", Json.str "5")]⟩ =
       .error { code := INVALID_PARAMS, message := "ID is required" })
  ∧ (call_tool CatServer.new ⟨"search_by_breed", some [("breed", Json.num (JNumber.posInt 5))]⟩ =
       .error { code := INVALID_PARAMS, message := "Breed is required" }) :=
  ⟨coercion_by_declared_type.1 [("id", Json.num (JNumber.float 1))]
     (Json.num (JNumber.float 1)) rfl (fun _ h => JNumber.noConfusion (Json.num.inj h)),
   coercion_by_declared_type.1 [("id", Json.num (JNumber.negInt (-5)))]
     (Json.num (JNumber.negInt (-5))) rfl (fun _ h => JNumber.noConfusion (Json.num.inj h)),
   coercion_by_declared_type.1 [("id", Json.str "5")]
     (Json.str "5") rfl (fun _ h => Json.noConfusion h),
   coercion_by_declared_type.2.2.1 [("breed", Json.num (JNumber.posInt 5))]
     (Json.num (JNumber.posInt 5)) rfl (fun _ h => Json.noConfusion h)⟩

/-- C2 counterexample: `get_cat_by_id` does NOT accept a floating-point id —
`{"id": 1.5}` yields `invalid_params`, refuting the claim that a "number"
parameter accepts any value interpretable as a float. -/
theorem getById_rejects_float_id :
    call_tool CatServer.new ⟨"get_cat_by_id", some [("id", Json.num (JNumber.float (3 / 2)))]⟩ =
      .error { code := INVALID_PARAMS, message := "ID is required" } := rfl

/-- C3: omitting a tool's required parameter (or passing no argument bag at
all) yields `invalid_params` with a message naming that parameter — "ID is
required" for `get_cat_by_id`'s `id`, "Breed is required" for
`search_by_breed`'s `breed` — and the result is the same for every repository
state `s`, so the handler body never consults the repository on that path. -/
theorem missing_required_param_invalid :
    (∀ (s : CatServer) (args : Option (List (String × Json))),
       args.bind (fun a => getArg a "id") = none →
       call_tool s ⟨"get_cat_by_id", args⟩ =
         .error { code := INVALID_PARAMS, message := "ID is required" })
  ∧ (∀ (s : CatServer) (args : Option (List (String × Json))),
       args.bind (fun a => getArg a "breed") = none →
       call_tool s ⟨"search_by_breed", args⟩ =
         .error { code := INVALID_PARAMS, message := "Breed is required" })
  ∧ strContains (strLower "ID is required") "id" = true
  ∧ strContains (strLower "Breed is required") "breed" = true := by
  refine ⟨?_, ?_, by decide, by decide⟩
  · intro s args h
    apply getById_noarg
    rw [h]
    rfl
  · intro s args h
    apply search_noarg
    rw [h]
    rfl

/-- C3 witness: calling both tools with no argument bag at all produces the
parameter-naming `invalid_params` errors. -/
theorem missing_required_param_invalid_witness :
    (call_tool CatServer.new ⟨"get_cat_by_id", none⟩ =
       .error { code := INVALID_PARAMS, message := "ID is required" })
  ∧ (call_tool CatServer.new ⟨"search_by_breed", none⟩ =
       .error { code := INVALID_PARAMS, message := "Breed is required" }) :=
  ⟨missing_required_param_invalid.1 CatServer.new none rfl,
   missing_required_param_invalid.2.1 CatServer.new none rfl⟩

/-- C4: every tool name outside the catalog gets a `method_not_found` error
whose message "Unknown tool: ..." references that name, for any argument
bag. -/
theorem unknown_tool_method_not_found (name : String)
    (args : Option (List (String × Json))) (h : name ∉ toolNames) :
    call_tool CatServer.new ⟨name, args⟩ =
      .error { code := METHOD_NOT_FOUND, message := "Unknown tool: " ++ name }
    ∧ strContains ("Unknown tool: " ++ name) name = true := by
  rw [toolNames_eq] at h
  simp only [List.mem_cons, List.not_mem_nil, or_false, not_or] at h
  obtain ⟨h1, h2, h3, h4⟩ := h
  exact ⟨call_tool_fallthrough CatServer.new name args h1 h2 h3 h4,
         strContains_append_right "Unknown tool: " name⟩

/-- C4 witness: the unknown name "delete_cat" is rejected with a
`method_not_found` error that spells the name out. -/
theorem unknown_tool_method_not_found_witness :
    call_tool CatServer.new ⟨"delete_cat", some []⟩ =
      .error { code := METHOD_NOT_FOUND, message := "Unknown tool: " ++ "delete_cat" }
    ∧ strContains ("Unknown tool: " ++ "delete_cat") "delete_cat" = true :=
  unknown_tool_method_not_found "delete_cat" (some []) (by decide)

/-- C5: on the sample data, `get_cat_by_id` with id 1 succeeds (`is_error` is
`some false`) with a content block naming "Mike", and with id 999 succeeds —
it is not an error — with the explicit text "Cat with ID 999 not found". -/
theorem getById_sample_found_notfound :
    ((call_tool CatServer.new
        ⟨"get_cat_by_id", some [("id", Json.num (JNumber.posInt 1))]⟩).toOption.map
      (fun r => (r.is_error, r.content.any (fun c => strContains c "Mike"))) =
        some (some false, true))
  ∧ (call_tool CatServer.new ⟨"get_cat_by_id", some [("id", Json.num (JNumber.posInt 999))]⟩ =
       .ok { content := ["Cat with ID 999 not found"], is_error := some false })
  ∧ strContains "Cat with ID 999 not found" "not found" = true :=
  ⟨by decide, by decide, by decide⟩

/-- C6: on the sample data, `search_by_breed` for "Persian" matches exactly the
one cat "Shiro" and reports "(1 cats)" in a successful result; searching
"Nonexistent" succeeds with a zero-match message; and the matching is
case-sensitive substring containment — lower-case "persian" matches nothing. -/
theorem search_breed_sample :
    ((CatServer.new.values.filter (fun c => strContains c.breed "Persian")).map (·.name) =
       ["Shiro"])
  ∧ ((call_tool CatServer.new
        ⟨"search_by_breed", some [("breed", Json.str "Persian")]⟩).toOption.map
      (fun r => (r.is_error, r.content.any
        (fun c => strContains c "Shiro" && strContains c "(1 cats)"))) =
        some (some false, true))
  ∧ (call_tool CatServer.new ⟨"search_by_breed", some [("breed", Json.str "Nonexistent")]⟩ =
       .ok { content := ["No cats found with breed \"Nonexistent\""], is_error := some false })
  ∧ (call_tool CatServer.new ⟨"search_by_breed", some [("breed", Json.str "persian")]⟩ =
       .ok { content := ["No cats found with breed \"persian\""], is_error := some false }) :=
  ⟨by decide, by decide, by decide, by decide⟩

/-- C7: on the sample four-cat data, `get_indoor_cats` succeeds with exactly
three cats, and the excluded one (id 3, "Kuro") appears in neither the filter
result nor the reported content; in general the filtered count never exceeds
the repository's total count. -/
theorem indoor_cats_sample_and_bound :
    ((CatServer.new.values.filter (·.is_indoor)).length = 3)
  ∧ (((CatServer.new.values.filter (·.is_indoor)).map (·.id)).contains 3 = false)
  ∧ (((CatServer.new.values.filter (·.is_indoor)).map (·.name)).contains "Kuro" = false)
  ∧ ((call_tool CatServer.new ⟨"get_indoor_cats", none⟩).toOption.map
      (fun r => (r.is_error, r.content.any
        (fun c => strContains c "(3 cats)" && !(strContains c "Kuro")))) =
        some (some false, true))
  ∧ (∀ s : CatServer, (s.values.filter (·.is_indoor)).length ≤ s.values.length) :=
  ⟨by decide, by decide, by decide, by decide, fun s => List.length_filter_le _ _⟩

/-- C8: `list_tools` is idempotent — it returns the very same result for every
pagination token (in particular the same ordered four-descriptor sequence),
`next_cursor` is always absent, and every descriptor's input schema has the
shape `type: "object"` with a `properties` object and a `required` string
list. -/
theorem list_tools_idempotent_single_page :
    (∀ p q : Option PaginatedRequestParam, list_tools p = list_tools q)
  ∧ (∀ p : Option PaginatedRequestParam, (list_tools p).next_cursor = none)
  ∧ ((list_tools none).tools.map (·.name) =
       ["list_all_cats", "get_cat_by_id", "search_by_breed", "get_indoor_cats"])
  ∧ ((list_tools none).tools.all (fun t => schemaShape t.input_schema) = true) :=
  ⟨fun _ _ => rfl, fun _ => rfl, rfl, rfl⟩

/-- C9: `get_cat_by_id` truncates the supplied u64 id modulo 2^32 (the
`v as u32` cast) before lookup, so id 2^32 + 1 = 4294967297 answers with cat 1
("Mike", reported as "ID: 1") instead of "not found". -/
theorem getById_reduces_id_mod_2_32 :
    (∀ n : Nat, n < 2 ^ 64 →
       call_tool CatServer.new
           ⟨"get_cat_by_id", some [("id", Json.num (JNumber.posInt n))]⟩ =
         call_tool CatServer.new
           ⟨"get_cat_by_id", some [("id", Json.num (JNumber.posInt (n % 2 ^ 32)))]⟩)
  ∧ ((call_tool CatServer.new
        ⟨"get_cat_by_id", some [("id", Json.num (JNumber.posInt 4294967297))]⟩).toOption.map
      (fun r => r.content.any (fun c => strContains c "Mike" && strContains c "(ID: 1)")) =
        some true) := by
  constructor
  · intro n _
    have hl : ((some [("id", Json.num (JNumber.posInt n))]).bind
        (fun a => getArg a "id")).bind Json.as_u64 = some n := rfl
    have hr : ((some [("id", Json.num (JNumber.posInt (n % 2 ^ 32)))]).bind
        (fun a => getArg a "id")).bind Json.as_u64 = some (n % 2 ^ 32) := rfl
    rw [call_tool_get_by_id, call_tool_get_by_id, hl, hr, Option.map_some',
        Option.map_some', Nat.mod_mod_of_dvd n dvd_rfl]
  · decide

/-- C9 witness: the wrap-around at the concrete id 2^32 + 1. -/
theorem getById_reduces_id_mod_2_32_witness :
    (4294967297 < 2 ^ 64)
  ∧ (call_tool CatServer.new
         ⟨"get_cat_by_id", some [("id", Json.num (JNumber.posInt 4294967297))]⟩ =
       call_tool CatServer.new
         ⟨"get_cat_by_id", some [("id", Json.num (JNumber.posInt (4294967297 % 2 ^ 32)))]⟩) :=
  ⟨by norm_num, getById_reduces_id_mod_2_32.1 4294967297 (by norm_num)⟩

/-- C10: the empty pattern is contained in every string, so `search_by_breed`
with the empty breed matches the entire repository: on the sample data the
filter keeps all four cats and the call succeeds reporting "(4 cats)". -/
theorem search_empty_breed_returns_all :
    (∀ s : String, strContains s "" = true)
  ∧ (CatServer.new.values.filter (fun c => strContains c.breed "") = CatServer.new.values)
  ∧ ((call_tool CatServer.new
        ⟨"search_by_breed", some [("breed", Json.str "")]⟩).toOption.map
      (fun r => (r.is_error, r.content.any (fun c => strContains c "(4 cats)"))) =
        some (some false, true)) :=
  ⟨strContains_empty_pat, by decide, by decide⟩

end CatMcp
